import Mathlib

/-!
Shallow embedding of the brandguard-backend service (src/src/index.js).

The repository holds three revisions of one Express + Playwright service.
The embedding follows the latest revision (navigation ladder `safeGoto`,
analyze handler with screenshot fallback, lines 291-502) together with the
auth middleware that appears in the middle revision (lines 143-149), which
is the code the specification's auth section describes.

Browser-produced data (navigation outcomes, extracted font lists, image
dimensions, screenshot payloads, page titles) enters the model as explicit
oracle inputs; everything the JavaScript itself computes over that data is
translated into executable Lean definitions.  JavaScript numbers appearing
here are integers (lengths, counts, HTTP statuses) or exact ratios of DOM
pixel dimensions, so they are modelled by `Nat`/`Int`/`ℚ`.
-/

/-! ### Font-family normalization (page.evaluate in the analyze handler)

`normalize = (s) => (s ? s.split(',')[0].trim().replace(/^['"]|['"]$/g, '').toLowerCase() : null)`

Strings are modelled as `List Char`.  `trim` removes ASCII whitespace
(space, tab, LF, VT, FF, CR); the quote characters are char codes 39 and 34. -/

def isJsSpace (c : Char) : Bool :=
  c.toNat == 32 || c.toNat == 9 || c.toNat == 10 || c.toNat == 11 || c.toNat == 12 || c.toNat == 13

def isQuoteChar (c : Char) : Bool :=
  c.toNat == 39 || c.toNat == 34

/-- `s.split(',')[0]`: everything before the first comma (char code 44). -/
def splitFirst (s : List Char) : List Char :=
  s.takeWhile (fun c => !(c.toNat == 44))

/-- `s.trimStart()` part of `trim`. -/
def trimLeft (s : List Char) : List Char :=
  s.dropWhile isJsSpace

/-- `s.trimEnd()` part of `trim`. -/
def trimRight (s : List Char) : List Char :=
  (s.reverse.dropWhile isJsSpace).reverse

/-- `s.trim()`. -/
def jsTrim (s : List Char) : List Char :=
  trimRight (trimLeft s)

/-- Remove one leading quote character, as matched by `/^['"]/`. -/
def dropHeadQuote : List Char → List Char
  | [] => []
  | c :: rest => if isQuoteChar c then rest else c :: rest

/-- Remove one trailing quote character, as matched by `/['"]$/`. -/
def dropLastQuote (s : List Char) : List Char :=
  (dropHeadQuote s.reverse).reverse

/-- `s.replace(/^['"]|['"]$/g, '')`: strips at most one quote from each end. -/
def stripQuotes (s : List Char) : List Char :=
  dropLastQuote (dropHeadQuote s)

/-- `s.toLowerCase()` (ASCII). -/
def jsToLower (s : List Char) : List Char :=
  s.map Char.toLower

/-- The normalize arrow function: the empty string is falsy in JavaScript,
so it yields `null`; otherwise first comma token, trim, strip one layer of
surrounding quotes, lowercase. -/
def normalizeFam (s : List Char) : Option (List Char) :=
  if s = [] then none
  else some (jsToLower (stripQuotes (jsTrim (splitFirst s))))

/-! ### Distorted-image pass (page.evaluate in the analyze handler) -/

/-- One `<img>` element's measurements: `naturalWidth`, `naturalHeight`,
`clientWidth`, `clientHeight` and its resolved source URL. -/
structure ImgDims where
  nw : Nat
  nh : Nat
  cw : Nat
  ch : Nat
  src : String
deriving DecidableEq, Repr

/-- `if (!nw || !nh || !cw || !ch) continue;` — all four measurements are
known (non-zero, hence truthy). -/
def allKnown (m : ImgDims) : Bool :=
  !(m.nw == 0) && !(m.nh == 0) && !(m.cw == 0) && !(m.ch == 0)

/-- `natAR = nw / nh`. -/
def natARq (m : ImgDims) : ℚ :=
  (m.nw : ℚ) / (m.nh : ℚ)

/-- `rendAR = cw / ch`. -/
def rendARq (m : ImgDims) : ℚ :=
  (m.cw : ℚ) / (m.ch : ℚ)

/-- `delta = Math.abs(rendAR - natAR) / natAR`. -/
def deltaOf (m : ImgDims) : ℚ :=
  |rendARq m - natARq m| / natARq m

/-- `const THRESHOLD = 0.03; // 3%` -/
def THRESHOLD : ℚ := 3 / 100

/-- The images flagged by the loop at a given threshold: measured images
whose relative aspect-ratio delta exceeds the threshold, in page order. -/
def distortedDims (t : ℚ) (imgs : List ImgDims) : List ImgDims :=
  imgs.filter (fun m => allKnown m && decide (t < deltaOf m))

/-- `Number(x.toFixed(3))` on a positive ratio: round to 3 decimals. -/
def round3 (q : ℚ) : ℚ := (round (q * 1000) : ℚ) / 1000

/-- `Number((delta * 100).toFixed(1))`: percentage rounded to 1 decimal. -/
def round1 (q : ℚ) : ℚ := (round (q * 10) : ℚ) / 10

/-- The record pushed onto `OUT` for a flagged image. -/
structure DistRecord where
  src : String
  naturalAR : ℚ
  renderAR : ℚ
  deltaPct : ℚ
deriving DecidableEq, Repr

def mkDistRecord (m : ImgDims) : DistRecord :=
  ⟨m.src, round3 (natARq m), round3 (rendARq m), round1 (deltaOf m * 100)⟩

/-- The `distorted` array returned by the page evaluation. -/
def distortedRecords (imgs : List ImgDims) : List DistRecord :=
  (distortedDims THRESHOLD imgs).map mkDistRecord

/-! ### Scorer (analyze handler, lines 444-474 of the latest revision) -/

def maxFamilies : Nat := 3

/-- Evidence payload of a finding. -/
inductive Evidence where
  | fontsEv (families : List String) (total : Nat) (recomendado : String)
  | imgEv (d : DistRecord)
deriving DecidableEq, Repr

structure Finding where
  id : String
  title : String
  severity : String
  explanation : String
  evidence : Evidence
deriving DecidableEq, Repr

/-- The `B1` finding pushed when `fonts.length > maxFamilies`. -/
def mkB1 (fonts : List String) : Finding :=
  ⟨"B1", "Demasiadas familias tipográficas", "medium",
    "Usar demasiadas familias daña la coherencia de marca.",
    Evidence.fontsEv fonts fonts.length ("≤ " ++ toString maxFamilies)⟩

/-- The `A1` finding pushed for each distorted image. -/
def mkA1 (d : DistRecord) : Finding :=
  ⟨"A1", "Imagen posiblemente distorsionada", "high",
    "La proporción de la imagen en pantalla difiere de su proporción original.",
    Evidence.imgEv d⟩

/-- The findings list: optional `B1` first, then one `A1` per distorted
image in page order. -/
def buildFindings (fonts : List String) (distorted : List DistRecord) : List Finding :=
  (if fonts.length > maxFamilies then [mkB1 fonts] else []) ++ distorted.map mkA1

structure ByCategory where
  typography : Int
  logos : Int
deriving DecidableEq, Repr

structure AnalysisMeta where
  url : String
  status : Nat
  fontsDetected : List String
  distortedImages : Nat
deriving DecidableEq, Repr

structure AnalysisOut where
  score : Int
  byCategory : ByCategory
  findings : List Finding
  meta : AnalysisMeta
deriving DecidableEq, Repr

/-- The object returned from the analyze `withPage` callback:
`score: Math.max(50, 100 - distorted.length * 10 - Math.max(0, fonts.length - maxFamilies) * 5)`,
fixed-tier category scores, findings, meta. -/
def analysisResult (url : String) (status : Nat)
    (fonts : List String) (distorted : List DistRecord) : AnalysisOut :=
  ⟨max 50 (100 - (distorted.length : Int) * 10 - max 0 ((fonts.length : Int) - (maxFamilies : Int)) * 5),
   ⟨if fonts.length > maxFamilies then 70 else 95,
    if distorted.length == 0 then 95 else 65⟩,
   buildFindings fonts distorted,
   ⟨url, status, fonts, distorted.length⟩⟩

/-- C1: the numeric score equals `max(50, 100 - 10*distortedCount - 5*max(0, fontCount-3))`,
hence always lies in [50, 100]; 0 distorted images with 2 font families give 100,
2 distorted images with 5 font families give 70. -/
theorem analyze_score_formula_and_bounds (url : String) (status : Nat)
    (fonts : List String) (distorted : List DistRecord) :
    (analysisResult url status fonts distorted).score =
      max 50 (100 - 10 * (distorted.length : Int)
        - 5 * max 0 ((fonts.length : Int) - 3))
    ∧ 50 ≤ (analysisResult url status fonts distorted).score
    ∧ (analysisResult url status fonts distorted).score ≤ 100
    ∧ (distorted.length = 0 → fonts.length = 2 →
        (analysisResult url status fonts distorted).score = 100)
    ∧ (distorted.length = 2 → fonts.length = 5 →
        (analysisResult url status fonts distorted).score = 70) := by
  have hkey : (analysisResult url status fonts distorted).score =
      max 50 (100 - 10 * (distorted.length : Int)
        - 5 * max 0 ((fonts.length : Int) - 3)) := by
    show max 50 (100 - (distorted.length : Int) * 10
        - max 0 ((fonts.length : Int) - (maxFamilies : Int)) * 5) = _
    norm_num [maxFamilies]
    congr 1
    ring
  refine ⟨hkey, ?_, ?_, ?_, ?_⟩
  · rw [hkey]; exact le_max_left _ _
  · rw [hkey]
    apply max_le (by norm_num)
    have h1 : (0 : Int) ≤ (distorted.length : Int) := Int.natCast_nonneg _
    have h2 : (0 : Int) ≤ max 0 ((fonts.length : Int) - 3) := le_max_left 0 _
    nlinarith
  · intro h0 h2
    rw [hkey, h0, h2]
    norm_num
  · intro h0 h2
    rw [hkey, h0, h2]
    norm_num

/-- Closed witness for the score theorem: concrete font and image lists
realizing the two quoted examples. -/
theorem analyze_score_formula_and_bounds_witness :
    (analysisResult "u" 200 ["a", "b"] []).score = 100
    ∧ (analysisResult "u" 200 ["a", "b", "c", "d", "e"]
        [⟨"i1", 1, 2, 50⟩, ⟨"i2", 1, 2, 50⟩]).score = 70 := by
  refine ⟨?_, ?_⟩
  · exact (analyze_score_formula_and_bounds "u" 200 ["a", "b"] []).2.2.2.1 rfl rfl
  · exact (analyze_score_formula_and_bounds "u" 200 ["a", "b", "c", "d", "e"]
      [⟨"i1", 1, 2, 50⟩, ⟨"i2", 1, 2, 50⟩]).2.2.2.2 rfl rfl

/-! ### Navigator: `safeGoto` (lines 346-359 of the latest revision)

Each `page.goto` call either throws, resolves to `null`, or resolves to a
response with an ok flag and an HTTP status.  These outcomes are oracle
inputs; `safeGoto` is the JavaScript control flow over them. -/

/-- Outcome of one `page.goto` call. -/
inductive GotoOutcome where
  | thrown (msg : String)
  | nullResp
  | resp (ok : Bool) (status : Nat)
deriving DecidableEq, Repr

/-- A non-null navigation response: `ok()` flag and `status()`. -/
structure NavResp where
  ok : Bool
  status : Nat
deriving DecidableEq, Repr

/-- Error raised out of `safeGoto`: either the engine's own exception
propagating from the second `page.goto` (it is not wrapped), or the
`Error` the function itself constructs, which carries the second
response's status when there was one and `desconocido` (unknown)
otherwise. -/
inductive SafeGotoErr where
  | engine (msg : String)
  | nav (status : Option Nat)
deriving DecidableEq, Repr

/-- `String(e?.message || e)` seen by the handlers for each error. -/
def SafeGotoErr.message : SafeGotoErr → String
  | SafeGotoErr.engine m => m
  | SafeGotoErr.nav s =>
      "No se pudo cargar la URL (status=" ++
        (match s with
          | some n => toString n
          | none => "desconocido") ++ ")"

/-- Wait strategy of a `page.goto` call. -/
inductive WaitUntil where
  | networkidle
  | domcontentloaded
deriving DecidableEq, Repr

/-- The `waitUntil`/`timeout` options of a `page.goto` call. -/
structure GotoCfg where
  waitUntil : WaitUntil
  timeoutMs : Nat
deriving DecidableEq, Repr

/-- Options of the first attempt: `{ waitUntil: 'networkidle', timeout: 60000 }`. -/
def safeGotoCfg1 : GotoCfg := ⟨WaitUntil.networkidle, 60000⟩

/-- Options of the second attempt: `{ waitUntil: 'domcontentloaded', timeout: 60000 }`. -/
def safeGotoCfg2 : GotoCfg := ⟨WaitUntil.domcontentloaded, 60000⟩

/-- Did the first attempt return an ok response (`r1 && r1.ok()`)?  When it
did, `safeGoto` returns it and the second `goto` is never executed. -/
def firstAttemptOk : GotoOutcome → Bool
  | GotoOutcome.resp true _ => true
  | _ => false

/-- `safeGoto(page, url)`: try `networkidle`, swallow any exception; fall
back on `domcontentloaded`; a non-ok or null second response raises the
constructed error, a second-attempt exception propagates as-is. -/
def safeGoto (a1 a2 : GotoOutcome) : Except SafeGotoErr NavResp :=
  match a1 with
  | GotoOutcome.resp true s => Except.ok ⟨true, s⟩
  | _ =>
    match a2 with
    | GotoOutcome.thrown m => Except.error (SafeGotoErr.engine m)
    | GotoOutcome.nullResp => Except.error (SafeGotoErr.nav none)
    | GotoOutcome.resp true s => Except.ok ⟨true, s⟩
    | GotoOutcome.resp false s => Except.error (SafeGotoErr.nav (some s))

/-- How many `page.goto` calls `safeGoto` performs: one when the first
attempt yields an ok response, two otherwise — never more. -/
def safeGotoAttempts (a1 : GotoOutcome) : Nat :=
  if firstAttemptOk a1 then 1 else 2

/-- C2: attempt 1 uses networkidle with a 60s timeout and, when it yields an
ok response, is the only attempt; otherwise exactly one more attempt runs,
using domcontentloaded with a 60s timeout; its ok response is returned, a
non-ok or null second response raises the constructed navigation error
carrying the second status (or none, reported `desconocido`); a thrown
second attempt propagates the engine error, which carries no status.  Never
more than two attempts. -/
theorem safeGoto_retry_ladder (a1 a2 : GotoOutcome) :
    safeGotoCfg1 = ⟨WaitUntil.networkidle, 60000⟩
    ∧ safeGotoCfg2 = ⟨WaitUntil.domcontentloaded, 60000⟩
    ∧ safeGotoAttempts a1 ≤ 2
    ∧ (∀ s, a1 = GotoOutcome.resp true s →
        safeGoto a1 a2 = Except.ok ⟨true, s⟩ ∧ safeGotoAttempts a1 = 1)
    ∧ (firstAttemptOk a1 = false →
        safeGotoAttempts a1 = 2
        ∧ (∀ s, a2 = GotoOutcome.resp true s → safeGoto a1 a2 = Except.ok ⟨true, s⟩)
        ∧ (∀ s, a2 = GotoOutcome.resp false s →
            safeGoto a1 a2 = Except.error (SafeGotoErr.nav (some s)))
        ∧ (a2 = GotoOutcome.nullResp →
            safeGoto a1 a2 = Except.error (SafeGotoErr.nav none))
        ∧ (∀ m, a2 = GotoOutcome.thrown m →
            safeGoto a1 a2 = Except.error (SafeGotoErr.engine m))) := by
  refine ⟨rfl, rfl, ?_, ?_, ?_⟩
  · unfold safeGotoAttempts
    split <;> omega
  · rintro s rfl
    exact ⟨rfl, rfl⟩
  · intro hno
    refine ⟨by simp [safeGotoAttempts, hno], ?_, ?_, ?_, ?_⟩
    · rintro s rfl
      cases a1 with
      | thrown m => rfl
      | nullResp => rfl
      | resp ok st =>
        cases ok with
        | false => rfl
        | true => simp [firstAttemptOk] at hno
    · rintro s rfl
      cases a1 with
      | thrown m => rfl
      | nullResp => rfl
      | resp ok st =>
        cases ok with
        | false => rfl
        | true => simp [firstAttemptOk] at hno
    · rintro rfl
      cases a1 with
      | thrown m => rfl
      | nullResp => rfl
      | resp ok st =>
        cases ok with
        | false => rfl
        | true => simp [firstAttemptOk] at hno
    · rintro m rfl
      cases a1 with
      | thrown m2 => rfl
      | nullResp => rfl
      | resp ok st =>
        cases ok with
        | false => rfl
        | true => simp [firstAttemptOk] at hno

/-- Closed witness for the retry-ladder theorem: a first attempt that threw
followed by a 404 second response yields the constructed error carrying
status 404 after exactly two attempts. -/
theorem safeGoto_retry_ladder_witness :
    safeGoto (GotoOutcome.thrown "timeout") (GotoOutcome.resp false 404)
      = Except.error (SafeGotoErr.nav (some 404))
    ∧ safeGotoAttempts (GotoOutcome.thrown "timeout") = 2 := by
  have h := safeGoto_retry_ladder (GotoOutcome.thrown "timeout") (GotoOutcome.resp false 404)
  exact ⟨(h.2.2.2.2 rfl).2.2.1 404 rfl, (h.2.2.2.2 rfl).1⟩

/-! ### Browser Session Factory: `withPage` (lines 306-341 of the latest revision)

`withPage` launches a browser, builds a context and page, then runs the
wrapped computation inside `try { return await fn(page) } finally { await
browser.close() }`.  The wrapped computation's outcome (return value or
thrown error) is an oracle input; the trace records the browser launch and
close events the function performs around it. -/

inductive SessionEvent where
  | launch
  | close
deriving DecidableEq, Repr

/-- Running `withPage fn`: the launch happens first; whether `fn` returns a
value (including an early return) or throws, the `finally` block closes the
browser, and the result or exception then propagates unchanged. -/
def withPageRun {α : Type} (fn : Except String α) :
    List SessionEvent × Except String α :=
  match fn with
  | Except.ok v => ([SessionEvent.launch, SessionEvent.close], Except.ok v)
  | Except.error e => ([SessionEvent.launch, SessionEvent.close], Except.error e)

/-- C9: for every outcome of the wrapped computation — success (which
includes an early return) or thrown error — the session trace is exactly
one launch followed by one close, so acquisitions and releases are exactly
paired, and the outcome itself propagates unchanged. -/
theorem withPage_paired_release {α : Type} (fn : Except String α) :
    (withPageRun fn).1 = [SessionEvent.launch, SessionEvent.close]
    ∧ ((withPageRun fn).1.count SessionEvent.launch
        = (withPageRun fn).1.count SessionEvent.close)
    ∧ (withPageRun fn).2 = fn := by
  cases fn with
  | ok v => exact ⟨rfl, rfl, rfl⟩
  | error e => exact ⟨rfl, rfl, rfl⟩

/-! ### HTTP surface (latest revision, lines 361-502; auth middleware from
the middle revision, lines 143-149)

A response is modelled by its status and the JSON fields the handlers set;
absent fields are `none`.  Each handler also reports how many browser
sessions (`withPage` calls) it performed. -/

structure HttpResponse where
  status : Nat
  code : Option String
  message : Option String
  okFlag : Option Bool
  title : Option String
  imageB64 : Option String
  screenshotB64 : Option String
  analysis : Option AnalysisOut
  metaStatus : Option Nat
deriving DecidableEq, Repr

/-- A 400 `bad_request` response. -/
def respBadRequest (msg : String) : HttpResponse :=
  ⟨400, some "bad_request", some msg, none, none, none, none, none, none⟩

/-- The 401 response of the auth middleware. -/
def respUnauthorized : HttpResponse :=
  ⟨401, some "unauthorized", some "Missing/invalid bearer token",
    none, none, none, none, none, none⟩

/-- `!x` on an optional string body field: absent or empty is falsy. -/
def jsStrFalsy : Option String → Bool
  | none => true
  | some s => s == ""

/-- Oracle inputs reaching the screenshot handler from the browser. -/
structure ScreenshotOracle where
  nav1 : GotoOutcome
  nav2 : GotoOutcome
  pageTitle : String
  shotB64 : String
deriving Repr

/-- `POST /v1/screenshot` (latest revision, lines 371-399): missing `url`
is rejected before any session exists; otherwise one session runs
`safeGoto` and either captures the screenshot or maps the error to 500
`screenshot_failed`. -/
def screenshotHandler (url : Option String) (o : ScreenshotOracle) :
    HttpResponse × Nat :=
  if jsStrFalsy url then (respBadRequest "url requerida", 0)
  else
    match safeGoto o.nav1 o.nav2 with
    | Except.ok r =>
        (⟨200, none, none, some true, some o.pageTitle, some o.shotB64,
          none, none, some r.status⟩, 1)
    | Except.error e =>
        (⟨500, some "screenshot_failed", some e.message,
          none, none, none, none, none, none⟩, 1)

/-- The `target` object of the analyze body. -/
structure AnalyzeTarget where
  value : Option String
deriving DecidableEq, Repr

/-- `target?.value` with JavaScript falsiness: `none` when `target` is
absent, its `value` is absent, or its `value` is the empty string. -/
def targetValue : Option AnalyzeTarget → Option String
  | none => none
  | some t =>
      match t.value with
      | none => none
      | some v => if v == "" then none else some v

/-- Oracle inputs reaching the analyze handler from the browser: main-pass
navigation, extracted fonts and image measurements, and the fallback
session's navigation and screenshot. -/
structure AnalyzeOracle where
  nav1 : GotoOutcome
  nav2 : GotoOutcome
  fonts : List String
  imgs : List ImgDims
  fbNav1 : GotoOutcome
  fbNav2 : GotoOutcome
  fbShotB64 : String
deriving Repr

/-- The main analyze pass inside `withPage`: navigate, extract, score.
Fails with the navigation error's message. -/
def analyzePass (url : String) (o : AnalyzeOracle) : Except String AnalysisOut :=
  match safeGoto o.nav1 o.nav2 with
  | Except.error e => Except.error e.message
  | Except.ok r =>
      Except.ok (analysisResult url r.status o.fonts (distortedRecords o.imgs))

/-- The fallback pass inside a fresh `withPage`: navigate again and take a
low-fidelity (`fullPage:false, jpeg, quality 60`) screenshot. -/
def analyzeFallback (o : AnalyzeOracle) : Except String String :=
  match safeGoto o.fbNav1 o.fbNav2 with
  | Except.error e => Except.error e.message
  | Except.ok _ => Except.ok o.fbShotB64

/-- The 502 `analyze_blocked` message embedding the original error. -/
def analyzeBlockedMessage (e : String) : String :=
  "La página bloqueó el análisis DOM (" ++ e ++
    "). Se adjunta mini-captura para auditoría visual."

/-- `POST /v1/analyze` (latest revision, lines 404-496): validation, main
pass in one session, and on any main-pass error a fallback in a fresh
session producing 502 `analyze_blocked` with the screenshot, or 500
`analyze_failed` when the fallback fails too. -/
def analyzeHandler (target : Option AnalyzeTarget) (o : AnalyzeOracle) :
    HttpResponse × Nat :=
  match targetValue target with
  | none => (respBadRequest "target.value requerido", 0)
  | some url =>
    match analyzePass url o with
    | Except.ok out =>
        (⟨200, none, none, none, none, none, none, some out, none⟩, 1)
    | Except.error e =>
        match analyzeFallback o with
        | Except.ok shot =>
            (⟨502, some "analyze_blocked", some (analyzeBlockedMessage e),
              none, none, none, some shot, none, none⟩, 2)
        | Except.error e2 =>
            (⟨500, some "analyze_failed", some e2,
              none, none, none, none, none, none⟩, 2)

/-- A request's route together with the data its handler consumes. -/
inductive Endpoint where
  | health
  | screenshot (url : Option String) (o : ScreenshotOracle)
  | analyze (target : Option AnalyzeTarget) (o : AnalyzeOracle)

/-- Routing after the middleware: `GET /v1/health` answers `{ok:true}`
without a session; the other routes run their handlers. -/
def dispatch : Endpoint → HttpResponse × Nat
  | Endpoint.health =>
      (⟨200, none, none, some true, none, none, none, none, none⟩, 0)
  | Endpoint.screenshot url o => screenshotHandler url o
  | Endpoint.analyze t o => analyzeHandler t o

/-- `const API_KEY = process.env.API_KEY || null;` — an empty environment
value is falsy and leaves the gate disabled. -/
def apiKeyOf (env : Option String) : Option String :=
  match env with
  | none => none
  | some s => if s == "" then none else some s

/-- The whole service: the auth middleware (middle revision, lines
143-149) runs before every route; `req.get('Authorization') || ''` is
compared against the exact string `Bearer <API_KEY>`. -/
def service (env : Option String) (authHeader : Option String)
    (ep : Endpoint) : HttpResponse × Nat :=
  match apiKeyOf env with
  | none => dispatch ep
  | some k =>
      if authHeader.getD "" == "Bearer " ++ k then dispatch ep
      else (respUnauthorized, 0)

/-- C3: when validation passed and the main analysis pass fails with error
`e`, the handler runs the fallback in a fresh session (2 sessions in
total); a successful fallback yields 502 `analyze_blocked` carrying the
screenshot and a message embedding the original error; a failed fallback
yields 500 `analyze_failed`. -/
theorem analyze_fallback_responses (target : Option AnalyzeTarget)
    (url : String) (o : AnalyzeOracle)
    (htv : targetValue target = some url)
    (e : String) (hmain : analyzePass url o = Except.error e) :
    (∀ shot, analyzeFallback o = Except.ok shot →
        analyzeHandler target o =
          (⟨502, some "analyze_blocked",
            some ("La página bloqueó el análisis DOM (" ++ e ++
              "). Se adjunta mini-captura para auditoría visual."),
            none, none, none, some shot, none, none⟩, 2)
        ∧ (shot ≠ "" → (analyzeHandler target o).1.screenshotB64 ≠ some ""))
    ∧ (∀ e2, analyzeFallback o = Except.error e2 →
        analyzeHandler target o =
          (⟨500, some "analyze_failed", some e2,
            none, none, none, none, none, none⟩, 2)) := by
  constructor
  · intro shot hfb
    have hh : analyzeHandler target o =
        (⟨502, some "analyze_blocked", some (analyzeBlockedMessage e),
          none, none, none, some shot, none, none⟩, 2) := by
      simp only [analyzeHandler, htv, hmain, hfb]
    refine ⟨by rw [hh]; rfl, ?_⟩
    intro hne
    rw [hh]
    simpa using hne
  · intro e2 hfb
    simp only [analyzeHandler, htv, hmain, hfb]

/-- Closed witness for the fallback theorem: first navigation attempt
throws, second returns 404, so the main pass fails; the fallback session
navigates fine and its screenshot comes back in a 502 `analyze_blocked`,
and with a failing fallback the same request yields 500 `analyze_failed`. -/
theorem analyze_fallback_responses_witness :
    analyzeHandler (some ⟨some "https://x.example"⟩)
        ⟨GotoOutcome.thrown "Timeout", GotoOutcome.resp false 404, [], [],
          GotoOutcome.resp true 200, GotoOutcome.nullResp, "QUJD"⟩ =
      (⟨502, some "analyze_blocked",
        some ("La página bloqueó el análisis DOM (" ++
          "No se pudo cargar la URL (status=404)" ++
          "). Se adjunta mini-captura para auditoría visual."),
        none, none, none, some "QUJD", none, none⟩, 2)
    ∧ analyzeHandler (some ⟨some "https://x.example"⟩)
        ⟨GotoOutcome.thrown "Timeout", GotoOutcome.resp false 404, [], [],
          GotoOutcome.nullResp, GotoOutcome.nullResp, ""⟩ =
      (⟨500, some "analyze_failed",
        some "No se pudo cargar la URL (status=desconocido)",
        none, none, none, none, none, none⟩, 2) := by
  constructor
  · exact ((analyze_fallback_responses (some ⟨some "https://x.example"⟩)
      "https://x.example"
      ⟨GotoOutcome.thrown "Timeout", GotoOutcome.resp false 404, [], [],
        GotoOutcome.resp true 200, GotoOutcome.nullResp, "QUJD"⟩
      rfl "No se pudo cargar la URL (status=404)" rfl).1 "QUJD" rfl).1
  · exact (analyze_fallback_responses (some ⟨some "https://x.example"⟩)
      "https://x.example"
      ⟨GotoOutcome.thrown "Timeout", GotoOutcome.resp false 404, [], [],
        GotoOutcome.nullResp, GotoOutcome.nullResp, ""⟩
      rfl "No se pudo cargar la URL (status=404)" rfl).2
      "No se pudo cargar la URL (status=desconocido)" rfl

/-- C4: with a configured API key, any request whose bearer header is
absent or differs from `Bearer <API_KEY>` gets 401 `unauthorized` on every
endpoint; with no configured key (including the empty environment value)
every request is dispatched with no auth check. -/
theorem auth_gate (env : Option String) (k : String)
    (authHeader : Option String) (ep : Endpoint) :
    respUnauthorized.status = 401
    ∧ respUnauthorized.code = some "unauthorized"
    ∧ (apiKeyOf env = some k → authHeader.getD "" ≠ "Bearer " ++ k →
        service env authHeader ep = (respUnauthorized, 0))
    ∧ (apiKeyOf env = some k → authHeader = none →
        service env authHeader ep = (respUnauthorized, 0))
    ∧ (apiKeyOf env = none → service env authHeader ep = dispatch ep) := by
  refine ⟨rfl, rfl, ?_, ?_, ?_⟩
  · intro hk hne
    unfold service
    rw [hk]
    simp only [beq_iff_eq, if_neg hne]
  · intro hk hnone
    unfold service
    rw [hk, hnone]
    have hne : ((none : Option String).getD "" = "Bearer " ++ k) → False := by
      intro h
      have hlen : (0 : Nat) = ("Bearer " ++ k).length := by
        simpa using congrArg String.length h
      rw [String.length_append] at hlen
      have h7 : "Bearer ".length = 7 := rfl
      omega
    simp only [beq_iff_eq]
    rw [if_neg hne]
  · intro hk
    unfold service
    rw [hk]

/-- Closed witness for the auth theorem: with key `s3cret` a health request
with no header is rejected 401, and with an unset key the same request
succeeds `{ok:true}`. -/
theorem auth_gate_witness :
    service (some "s3cret") none Endpoint.health = (respUnauthorized, 0)
    ∧ service none none Endpoint.health =
        (⟨200, none, none, some true, none, none, none, none, none⟩, 0) := by
  constructor
  · exact (auth_gate (some "s3cret") "s3cret" none Endpoint.health).2.2.2.1 rfl rfl
  · exact (auth_gate none "s3cret" none Endpoint.health).2.2.2.2 rfl

/-- C8: a screenshot body with absent (or empty, still falsy) `url` and an
analyze body with absent `target.value` are answered 400 `bad_request`
with zero browser sessions created. -/
theorem validation_bad_request (url : Option String) (so : ScreenshotOracle)
    (target : Option AnalyzeTarget) (ao : AnalyzeOracle) :
    (respBadRequest "url requerida").status = 400
    ∧ (respBadRequest "url requerida").code = some "bad_request"
    ∧ (jsStrFalsy url = true →
        screenshotHandler url so = (respBadRequest "url requerida", 0))
    ∧ (targetValue target = none →
        analyzeHandler target ao = (respBadRequest "target.value requerido", 0)) := by
  refine ⟨rfl, rfl, ?_, ?_⟩
  · intro h
    unfold screenshotHandler
    rw [h]
    rfl
  · intro h
    unfold analyzeHandler
    rw [h]

/-- Closed witness for the validation theorem: a body with no `url` and a
body with no `target` are both rejected without a session. -/
theorem validation_bad_request_witness :
    screenshotHandler none
        ⟨GotoOutcome.nullResp, GotoOutcome.nullResp, "", ""⟩ =
      (respBadRequest "url requerida", 0)
    ∧ analyzeHandler none
        ⟨GotoOutcome.nullResp, GotoOutcome.nullResp, [], [],
          GotoOutcome.nullResp, GotoOutcome.nullResp, ""⟩ =
      (respBadRequest "target.value requerido", 0) := by
  constructor
  · exact (validation_bad_request none
      ⟨GotoOutcome.nullResp, GotoOutcome.nullResp, "", ""⟩ none
      ⟨GotoOutcome.nullResp, GotoOutcome.nullResp, [], [],
        GotoOutcome.nullResp, GotoOutcome.nullResp, ""⟩).2.2.1 rfl
  · exact (validation_bad_request none
      ⟨GotoOutcome.nullResp, GotoOutcome.nullResp, "", ""⟩ none
      ⟨GotoOutcome.nullResp, GotoOutcome.nullResp, [], [],
        GotoOutcome.nullResp, GotoOutcome.nullResp, ""⟩).2.2.2 rfl

/-! ### Normalization idempotency (claim C5)

Normalization is NOT idempotent: the regex strips only one layer of
quotes, and trimming happens before quote stripping, so a normalized name
can still begin with a quote (or with whitespace that was inside quotes),
and a second application changes it. -/

/-- Counterexample to C5: code 39 is the single-quote character.  The
font-family string consisting of two single quotes and `x` normalizes to a
name that still starts with a quote, and normalizing that name again
strips it. -/
theorem normalizeFam_not_idempotent :
    normalizeFam [Char.ofNat 39, Char.ofNat 39, 'x']
      = some [Char.ofNat 39, 'x']
    ∧ normalizeFam [Char.ofNat 39, 'x'] = some ['x']
    ∧ some ['x'] ≠ some [Char.ofNat 39, 'x'] := by
  refine ⟨by decide, by decide, by decide⟩

/-- `dropWhile` leaves a list alone when its first element (if any) fails
the predicate. -/
theorem dropWhile_head_false (p : Char → Bool) (l : List Char)
    (h : ∀ c, l.head? = some c → p c = false) : l.dropWhile p = l := by
  cases l with
  | nil => rfl
  | cons c rest =>
      have hc : p c = false := h c rfl
      simp [List.dropWhile_cons, hc]

/-- `dropHeadQuote` leaves a list alone when its first element (if any) is
not a quote character. -/
theorem dropHeadQuote_id (l : List Char)
    (h : ∀ c, l.head? = some c → isQuoteChar c = false) : dropHeadQuote l = l := by
  cases l with
  | nil => rfl
  | cons c rest =>
      have hc : isQuoteChar c = false := h c rfl
      simp [dropHeadQuote, hc]

/-- C5 amended: normalization is idempotent on names that are nonempty,
contain no comma, are already lowercase, and neither start nor end with a
quote character or whitespace; in general it is not idempotent (see the
counterexample). -/
theorem normalizeFam_idempotent_on_clean (n : List Char)
    (hne : n ≠ [])
    (hcomma : ∀ c ∈ n, (c.toNat == 44) = false)
    (hhead : ∀ c, n.head? = some c → isJsSpace c = false ∧ isQuoteChar c = false)
    (hlast : ∀ c, n.getLast? = some c → isJsSpace c = false ∧ isQuoteChar c = false)
    (hlower : jsToLower n = n) :
    normalizeFam n = some n := by
  have hsplit : splitFirst n = n := by
    unfold splitFirst
    rw [List.takeWhile_eq_self_iff]
    intro c hc
    simp [hcomma c hc]
  have htl : trimLeft n = n :=
    dropWhile_head_false isJsSpace n (fun c hc => (hhead c hc).1)
  have hrevhead : ∀ c, n.reverse.head? = some c →
      isJsSpace c = false ∧ isQuoteChar c = false := by
    intro c hc
    rw [List.head?_reverse] at hc
    exact hlast c hc
  have htr : trimRight n = n := by
    unfold trimRight
    rw [dropWhile_head_false isJsSpace n.reverse (fun c hc => (hrevhead c hc).1),
      List.reverse_reverse]
  have hdh : dropHeadQuote n = n :=
    dropHeadQuote_id n (fun c hc => (hhead c hc).2)
  have hdl : dropLastQuote n = n := by
    unfold dropLastQuote
    rw [dropHeadQuote_id n.reverse (fun c hc => (hrevhead c hc).2),
      List.reverse_reverse]
  unfold normalizeFam
  rw [if_neg hne, hsplit]
  unfold jsTrim
  rw [htl, htr]
  unfold stripQuotes
  rw [hdh, hdl, hlower]

/-- Closed witness for the amended idempotency theorem: the already-clean
name `arial` is a fixed point of normalization. -/
theorem normalizeFam_idempotent_on_clean_witness :
    normalizeFam ['a', 'r', 'i', 'a', 'l'] = some ['a', 'r', 'i', 'a', 'l'] :=
  normalizeFam_idempotent_on_clean ['a', 'r', 'i', 'a', 'l']
    (by decide) (by decide) (by decide) (by decide) (by decide)

/-! ### Distortion flagging versus the threshold (claim C6) -/

/-- The relative delta is never negative: both aspect ratios are ratios of
natural-number pixel dimensions. -/
theorem deltaOf_nonneg (m : ImgDims) : 0 ≤ deltaOf m := by
  unfold deltaOf
  apply div_nonneg (abs_nonneg _)
  unfold natARq
  positivity

/-- C6: flagging is monotone in the threshold (lowering it flags a
superset); any threshold below 0 flags every image with all four
measurements known; any threshold at or above 1 flags no image whose
relative delta is at most 100%. -/
theorem distorted_threshold_monotone (t t1 t2 : ℚ)
    (imgs : List ImgDims) (m : ImgDims) :
    (t1 ≤ t2 → m ∈ distortedDims t2 imgs → m ∈ distortedDims t1 imgs)
    ∧ (t < 0 → m ∈ imgs → allKnown m = true → m ∈ distortedDims t imgs)
    ∧ (1 ≤ t → deltaOf m ≤ 1 → m ∉ distortedDims t imgs) := by
  refine ⟨?_, ?_, ?_⟩
  · intro hle hm
    rcases List.mem_filter.mp hm with ⟨hmem, hp⟩
    simp only [Bool.and_eq_true, decide_eq_true_eq] at hp
    refine List.mem_filter.mpr ⟨hmem, ?_⟩
    simp only [Bool.and_eq_true, decide_eq_true_eq]
    exact ⟨hp.1, lt_of_le_of_lt hle hp.2⟩
  · intro hneg hmem hknown
    refine List.mem_filter.mpr ⟨hmem, ?_⟩
    simp only [Bool.and_eq_true, decide_eq_true_eq]
    exact ⟨hknown, lt_of_lt_of_le hneg (deltaOf_nonneg m)⟩
  · intro hge hdelta hm
    rcases List.mem_filter.mp hm with ⟨_, hp⟩
    simp only [Bool.and_eq_true, decide_eq_true_eq] at hp
    linarith [hp.2]

/-- The witness image: 100x100 rendered at 200x100 has relative delta 1. -/
theorem deltaOf_logo : deltaOf ⟨100, 100, 200, 100, "logo.png"⟩ = 1 := by
  unfold deltaOf natARq rendARq
  norm_num

/-- Closed witness for the threshold theorem: a 100x100 image rendered at
200x100 has delta 1; it is flagged at thresholds 1/2 and -1 and not
flagged at threshold 1. -/
theorem distorted_threshold_monotone_witness :
    (⟨100, 100, 200, 100, "logo.png"⟩ : ImgDims) ∈
        distortedDims (1/2) [⟨100, 100, 200, 100, "logo.png"⟩]
    ∧ (⟨100, 100, 200, 100, "logo.png"⟩ : ImgDims) ∈
        distortedDims (-1) [⟨100, 100, 200, 100, "logo.png"⟩]
    ∧ (⟨100, 100, 200, 100, "logo.png"⟩ : ImgDims) ∉
        distortedDims 1 [⟨100, 100, 200, 100, "logo.png"⟩] := by
  have hmem2 : (⟨100, 100, 200, 100, "logo.png"⟩ : ImgDims) ∈
      distortedDims (2/3) [⟨100, 100, 200, 100, "logo.png"⟩] := by
    refine List.mem_filter.mpr ⟨List.mem_singleton_self _, ?_⟩
    simp only [Bool.and_eq_true, decide_eq_true_eq, deltaOf_logo]
    exact ⟨rfl, by norm_num⟩
  refine ⟨?_, ?_, ?_⟩
  · exact (distorted_threshold_monotone 0 (1/2) (2/3)
      [⟨100, 100, 200, 100, "logo.png"⟩] ⟨100, 100, 200, 100, "logo.png"⟩).1
      (by norm_num) hmem2
  · exact (distorted_threshold_monotone (-1) 0 (2/3)
      [⟨100, 100, 200, 100, "logo.png"⟩] ⟨100, 100, 200, 100, "logo.png"⟩).2.1
      (by norm_num) (List.mem_singleton_self _) rfl
  · exact (distorted_threshold_monotone 1 0 (2/3)
      [⟨100, 100, 200, 100, "logo.png"⟩] ⟨100, 100, 200, 100, "logo.png"⟩).2.2
      (by norm_num) (by rw [deltaOf_logo])

/-- C7: the category scores are fixed tiers — typography is 70 exactly over
the family limit and 95 otherwise, logos is 65 exactly when a distortion
was found and 95 otherwise — and they depend only on those two predicates,
not on the inputs that vary the numeric score. -/
theorem analyze_byCategory_tiers (url url2 : String) (status status2 : Nat)
    (fonts fonts2 : List String) (distorted distorted2 : List DistRecord) :
    (fonts.length > 3 →
        (analysisResult url status fonts distorted).byCategory.typography = 70)
    ∧ (fonts.length ≤ 3 →
        (analysisResult url status fonts distorted).byCategory.typography = 95)
    ∧ (0 < distorted.length →
        (analysisResult url status fonts distorted).byCategory.logos = 65)
    ∧ (distorted.length = 0 →
        (analysisResult url status fonts distorted).byCategory.logos = 95)
    ∧ ((fonts.length > 3 ↔ fonts2.length > 3) →
        (distorted.length = 0 ↔ distorted2.length = 0) →
        (analysisResult url status fonts distorted).byCategory
          = (analysisResult url2 status2 fonts2 distorted2).byCategory) := by
  refine ⟨?_, ?_, ?_, ?_, ?_⟩
  · intro h
    simp [analysisResult, maxFamilies, h]
  · intro h
    simp [analysisResult, maxFamilies, Nat.not_lt.mpr h]
  · intro h
    simp [analysisResult, Nat.pos_iff_ne_zero.mp h]
  · intro h
    simp [analysisResult, h]
  · intro hf hd
    show ByCategory.mk _ _ = ByCategory.mk _ _
    congr 1
    · by_cases h : fonts.length > 3
      · rw [if_pos (by simpa [maxFamilies] using h),
          if_pos (by simpa [maxFamilies] using hf.mp h)]
      · rw [if_neg (by simpa [maxFamilies] using h),
          if_neg (by simpa [maxFamilies] using (hf.not.mp h))]
    · by_cases h : distorted.length = 0
      · rw [if_pos (by simpa using h), if_pos (by simpa using hd.mp h)]
      · rw [if_neg (by simpa using h), if_neg (by simpa using (hd.not.mp h))]

/-- Closed witness for the tier theorem: four families and one distorted
image hit the 70/65 tiers; two families and no distortion hit 95/95. -/
theorem analyze_byCategory_tiers_witness :
    (analysisResult "u" 200 ["a", "b", "c", "d"]
        [⟨"i", 1, 2, 100⟩]).byCategory.typography = 70
    ∧ (analysisResult "u" 200 ["a", "b", "c", "d"]
        [⟨"i", 1, 2, 100⟩]).byCategory.logos = 65
    ∧ (analysisResult "u" 200 ["a", "b"] []).byCategory.typography = 95
    ∧ (analysisResult "u" 200 ["a", "b"] []).byCategory.logos = 95 := by
  refine ⟨?_, ?_, ?_, ?_⟩
  · exact (analyze_byCategory_tiers "u" "u" 200 200 ["a", "b", "c", "d"]
      ["a", "b", "c", "d"] [⟨"i", 1, 2, 100⟩] [⟨"i", 1, 2, 100⟩]).1 (by norm_num)
  · exact (analyze_byCategory_tiers "u" "u" 200 200 ["a", "b", "c", "d"]
      ["a", "b", "c", "d"] [⟨"i", 1, 2, 100⟩] [⟨"i", 1, 2, 100⟩]).2.2.1 (by norm_num)
  · exact (analyze_byCategory_tiers "u" "u" 200 200 ["a", "b"]
      ["a", "b"] [] []).2.1 (by norm_num)
  · exact (analyze_byCategory_tiers "u" "u" 200 200 ["a", "b"]
      ["a", "b"] [] []).2.2.2.1 rfl

/-! ### Findings list structure (claim C10) -/

/-- Every `A1` finding passes the `A1` filter. -/
theorem filterA1_map_mkA1 (l : List DistRecord) :
    (l.map mkA1).filter (fun f => f.id == "A1") = l.map mkA1 := by
  induction l with
  | nil => rfl
  | cons d rest ih => simp [mkA1, ih]

/-- No `A1` finding passes the `B1` filter. -/
theorem filterB1_map_mkA1 (l : List DistRecord) :
    (l.map mkA1).filter (fun f => f.id == "B1") = [] := by
  induction l with
  | nil => rfl
  | cons d rest ih => simp [mkA1, ih]

/-- C10: the findings of a successful analysis hold at most one `B1`; the
`A1` findings are exactly one per distorted image, in page order, with that
image as evidence; every `B1` precedes every `A1` (the list is its `B1`
filter followed by its `A1` filter); `meta.distortedImages` counts the `A1`
findings and `meta.fontsDetected` is the extracted font list. -/
theorem analyze_findings_structure (url : String) (status : Nat)
    (fonts : List String) (distorted : List DistRecord) :
    ((analysisResult url status fonts distorted).findings.countP
        (fun f => f.id == "B1")) ≤ 1
    ∧ (analysisResult url status fonts distorted).findings.filter
        (fun f => f.id == "A1") = distorted.map mkA1
    ∧ (analysisResult url status fonts distorted).findings =
        (analysisResult url status fonts distorted).findings.filter
          (fun f => f.id == "B1")
        ++ (analysisResult url status fonts distorted).findings.filter
          (fun f => f.id == "A1")
    ∧ (analysisResult url status fonts distorted).meta.distortedImages =
        ((analysisResult url status fonts distorted).findings.filter
          (fun f => f.id == "A1")).length
    ∧ (analysisResult url status fonts distorted).meta.fontsDetected = fonts := by
  have hF : (analysisResult url status fonts distorted).findings =
      (if fonts.length > maxFamilies then [mkB1 fonts] else [])
        ++ distorted.map mkA1 := rfl
  have hmeta : (analysisResult url status fonts distorted).meta.distortedImages =
      distorted.length := rfl
  by_cases h : fonts.length > maxFamilies
  · rw [hF, if_pos h]
    refine ⟨?_, ?_, ?_, ?_, rfl⟩
    · rw [List.countP_eq_length_filter, List.filter_append, filterB1_map_mkA1]
      simp [mkB1]
    · rw [List.filter_append, filterA1_map_mkA1]
      simp [mkB1]
    · rw [List.filter_append, List.filter_append,
        filterA1_map_mkA1, filterB1_map_mkA1]
      simp [mkB1]
    · rw [List.filter_append, filterA1_map_mkA1]
      simp [hmeta, mkB1]
  · rw [hF, if_neg h]
    refine ⟨?_, ?_, ?_, ?_, rfl⟩
    · rw [List.countP_eq_length_filter]
      simp [filterB1_map_mkA1]
    · simp [filterA1_map_mkA1]
    · simp [filterA1_map_mkA1, filterB1_map_mkA1]
    · simp [filterA1_map_mkA1, hmeta]

/-- Closed witness for the pairing theorem: a throwing computation still
produces exactly one launch and one close, and the error propagates. -/
theorem withPage_paired_release_witness :
    (withPageRun (Except.error "boom" : Except String Nat)).1
        = [SessionEvent.launch, SessionEvent.close]
    ∧ (withPageRun (Except.error "boom" : Except String Nat)).2
        = Except.error "boom" :=
  ⟨(withPage_paired_release (Except.error "boom" : Except String Nat)).1,
    (withPage_paired_release (Except.error "boom" : Except String Nat)).2.2⟩

/-- Closed witness for the findings-structure theorem: four families and
two distorted images give one `B1` followed by the two `A1` findings. -/
theorem analyze_findings_structure_witness :
    (analysisResult "u" 200 ["a", "b", "c", "d"]
        [⟨"i1", 1, 2, 100⟩, ⟨"i2", 2, 1, 50⟩]).findings.filter
      (fun f => f.id == "A1")
      = [mkA1 ⟨"i1", 1, 2, 100⟩, mkA1 ⟨"i2", 2, 1, 50⟩] :=
  (analyze_findings_structure "u" 200 ["a", "b", "c", "d"]
    [⟨"i1", 1, 2, 100⟩, ⟨"i2", 2, 1, 50⟩]).2.1
